import Mathlib

/-!
Shallow embedding of `src/ipymediator/interface/component.py`.

The file defines the data model (widget trait values, change events,
notification references), the widget operations the `Component` class uses
(`getattr`, `has_trait`, `set_trait`, `observe`, `on_click`), and the
`Component` operations themselves (`__new__`/`__init__` as `construct`,
`__call__` as `call`, `__contains__`/`__getitem__`/`__setitem__`,
`observe_handler`, `__str__`).  The Mediator collaborator is modelled as a
notification log (`MediatorState`) for the counting claims and as an
arbitrary fallible callback for the error-propagation claim.
-/

namespace Ipymediator

/-- A Python value held by a widget trait (or a bound method retrieved via
`getattr`).  Only the constructors the claims need are included; `method`
stands for any non-trait attribute of the widget object. -/
inductive Value where
  | bool : Bool → Value
  | str : String → Value
  | int : Int → Value
  | method : String → Value
deriving DecidableEq, Repr

/-- Python truthiness of a `Value` (used by `not w.value` in the button
click handler). -/
def Value.truthy : Value → Bool
  | .bool b => b
  | .str s => s ≠ ""
  | .int n => n ≠ 0
  | .method _ => true

/-- Python exceptions the code in `component.py` can raise or observe.
`valueError msg cause` carries its message and its `__cause__` (the
`raise ... from e` chain; in this file the cause is always the underlying
`attributeError`). -/
inductive PyError where
  | attributeError : String → PyError
  | typeError : String → PyError
  | valueError : String → PyError → PyError
  | traitError : String → PyError
deriving DecidableEq, Repr

/-- A traitlets change record: which trait, old value, new value (the
`change` dict passed to observe callbacks). -/
structure Change where
  name : String
  old : Value
  new : Value
deriving DecidableEq, Repr

/-- The `reference` argument passed to `Mediator.notify`: either the
Component object itself (`notify_self=True`) or its `widget_name` string. -/
inductive Reference where
  | componentRef : Reference
  | nameRef : String → Reference
deriving DecidableEq, Repr

/-- A widget from `ipywidgets`: an ordered trait dict, the non-trait
attributes of the object (methods such as `observe`, `has_trait`,
`set_trait`), the registered observers (each entry is the `names` tuple of
one `observe` call by a Component), the class name (`type(widget).__name__`),
whether the widget is a `widgets.Button`, and whether `__new__` installed
the click-to-toggle handler. -/
structure Widget where
  typeName : String
  isButton : Bool
  traits : List (String × Value)
  methods : List String
  observers : List (List String)
  clickToggle : Bool
deriving DecidableEq, Repr

/-- `widget.has_trait(name)`: does the trait dict hold `name`? -/
def Widget.has_trait (w : Widget) (t : String) : Bool :=
  (w.traits.find? (fun p => p.1 = t)).isSome

/-- Current value of a trait, if present. -/
def Widget.traitValue (w : Widget) (t : String) : Option Value :=
  (w.traits.find? (fun p => p.1 = t)).map (fun p => p.2)

/-- `getattr(widget, name)`: a trait value if `name` is a trait, a bound
method if `name` is a non-trait attribute, otherwise `AttributeError`. -/
def Widget.getattr (w : Widget) (t : String) : Except PyError Value :=
  match w.traitValue t with
  | some v => .ok v
  | none =>
    if t ∈ w.methods then .ok (.method t)
    else .error (.attributeError t)

/-- Store a new value into an existing trait entry (no notification). -/
def Widget.storeTrait (w : Widget) (t : String) (v : Value) : Widget :=
  { w with traits := w.traits.map (fun p => if p.1 = t then (t, v) else p) }

/-- `HasTraits.add_traits(widget, value=Bool(False))`: install a `value`
trait with default `False`, replacing any previous `value` trait. -/
def Widget.addValueTrait (w : Widget) : Widget :=
  if w.has_trait "value" then w.storeTrait "value" (.bool false)
  else { w with traits := w.traits ++ [("value", .bool false)] }

/-- `widget.set_trait(name, value)` without observer dispatch: fails with a
`TraitError` when `name` is not a trait; otherwise stores the value and
returns the change events traitlets emits (one event when the value
actually changed, none when the new value equals the old). -/
def Widget.set_trait (w : Widget) (t : String) (v : Value) :
    Except PyError (Widget × List Change) :=
  match w.traitValue t with
  | none => .error (.traitError t)
  | some old =>
    if v = old then .ok (w.storeTrait t v, [])
    else .ok (w.storeTrait t v, [⟨t, old, v⟩])

/-- `widget.observe(handler, names=names)`: register one observer entry. -/
def Widget.observe (w : Widget) (names : List String) : Widget :=
  { w with observers := w.observers ++ [names] }

/-- Result of `Component.__call__`: `operator.itemgetter` returns the bare
value for a single name and a tuple of values for two or more names. -/
inductive CallResult where
  | single : Value → CallResult
  | tuple : List Value → CallResult
deriving DecidableEq, Repr

/-- Is a `__call__` result a Python tuple object? -/
def CallResult.isTuple : CallResult → Bool
  | .single _ => false
  | .tuple _ => true

/-- A single apostrophe character, used by Python `repr` of strings and in
the error messages below. -/
def sq : String := String.singleton (Char.ofNat 39)

/-- The message of the `TypeError` Python raises for `self()` when
`__call__(self, trait, *args)` receives no `trait` argument. -/
def missingTraitMessage : String :=
  "Component.__call__() missing 1 required positional argument: "
    ++ sq ++ "trait" ++ sq

/-- `operator.itemgetter(trait, *args)` applied to an object whose
`__getitem__` is `getattr` on the widget: no names is a `TypeError`
(`__call__` is missing its required positional argument `trait`), one name
yields the bare value, several names yield the tuple of values in order. -/
def itemgetterGet (w : Widget) : List String → Except PyError CallResult
  | [] => .error (.typeError missingTraitMessage)
  | [t] => (w.getattr t).map .single
  | ts => (ts.mapM w.getattr).map .tuple

/-- Python `repr` of a tuple of strings, as interpolated by the f-string
`f"check 'names' parameter: {names}"` (a 1-tuple prints a trailing comma). -/
def tupleRepr (names : List String) : String :=
  match names with
  | [n] => "(" ++ sq ++ n ++ sq ++ ",)"
  | _ => "(" ++ String.intercalate ", " (names.map (fun n => sq ++ n ++ sq)) ++ ")"

/-- The message of the `ValueError` raised by `Component.__init__` when a
requested trait name is missing. -/
def badNamesMessage (names : List String) : String :=
  "check " ++ sq ++ "names" ++ sq ++ " parameter: " ++ tupleRepr names

/-- The `Component` object after a successful `__init__`: the wrapped
widget (with the observer registered), the display name, and the
`__reference` value passed to `Mediator.notify`.  The stored Mediator
back-reference is modelled externally (as the notification log
`MediatorState`, or as a callback for the error-propagation claim). -/
structure Component where
  widget : Widget
  widget_name : String
  reference : Reference
deriving DecidableEq, Repr

/-- `Component.__new__`: for a `widgets.Button`, add a `value` trait with
default `False` and install the `on_click` handler that toggles it. -/
def Component.applyNew (widget : Widget) : Widget :=
  if widget.isButton then
    { widget.addValueTrait with clickToggle := true }
  else widget

/-- `widget_name or f"{type(widget).__name__}Component"`: Python `or`
takes the right operand when `widget_name` is falsy (`None` or `""`). -/
def displayName (widget_name : Option String) (typeName : String) : String :=
  match widget_name with
  | some s => if s = "" then typeName ++ "Component" else s
  | none => typeName ++ "Component"

/-- `Component.__init__` after `__new__` has run: validate `names` by
reading every requested trait (`self(*names)`), translating an
`AttributeError` into a `ValueError` naming the `names` argument and
chained to the cause; then register the observer, compute the display name
(`widget_name or f"{type(widget).__name__}Component"`), and fix the notify
reference (`self if notify_self else self.widget_name`, with
`componentRef` standing for `self`).  On failure the widget is returned as
the caller still sees it (observer not registered). -/
def Component.init (w : Widget) (widget_name : Option String)
    (names : List String) (notify_self : Bool) :
    Except (PyError × Widget) Component :=
  match itemgetterGet w names with
  | .error (.attributeError a) =>
    .error (.valueError (badNamesMessage names) (.attributeError a), w)
  | .error e => .error (e, w)
  | .ok _ =>
    .ok { widget := w.observe names,
          widget_name := displayName widget_name w.typeName,
          reference :=
            if notify_self then .componentRef
            else .nameRef (displayName widget_name w.typeName) }

/-- Full construction `Component(mediator=…, widget=…, …)`: `__new__` (the
button special case) followed by `__init__`. -/
def Component.construct (widget : Widget) (widget_name : Option String)
    (names : List String) (notify_self : Bool) :
    Except (PyError × Widget) Component :=
  Component.init (Component.applyNew widget) widget_name names notify_self

/-- `Component.__call__(self, trait, *args)`. -/
def Component.call (c : Component) (names : List String) :
    Except PyError CallResult :=
  itemgetterGet c.widget names

/-- `Component.__contains__`. -/
def Component.mem (c : Component) (t : String) : Bool :=
  c.widget.has_trait t

/-- `Component.__getitem__`. -/
def Component.getitem (c : Component) (t : String) : Except PyError Value :=
  c.widget.getattr t

/-- `Component.__str__`. -/
def Component.toStr (c : Component) : String :=
  c.widget_name

/-- The Mediator collaborator, modelled as the log of `notify` calls it has
received. -/
structure MediatorState where
  log : List (Reference × Change)
deriving DecidableEq, Repr

/-- `Mediator.notify(reference, change)` appends one entry to the log. -/
def MediatorState.notify (m : MediatorState) (r : Reference) (ch : Change) :
    MediatorState :=
  { log := m.log ++ [(r, ch)] }

/-- `Component.observe_handler`: forward `(self._reference, change)` to the
Mediator. -/
def Component.observe_handler (c : Component) (m : MediatorState)
    (change : Change) : MediatorState :=
  m.notify c.reference change

/-- `Component.observe_handler` against a Mediator whose `notify` may
raise: the handler body is exactly `self._mediator.notify(self._reference,
change)`, with no try/except and no return value. -/
def Component.observe_handlerExc (c : Component)
    (notify : Reference → Change → Except PyError Unit) (change : Change) :
    Except PyError Unit :=
  notify c.reference change

/-- The closed system for the dynamic claims: one Component (wrapping its
widget) plus the Mediator's notification log. -/
structure SystemState where
  comp : Component
  med : MediatorState
deriving DecidableEq, Repr

/-- One observer dispatch round: every registered observer entry whose
`names` tuple holds the changed trait is invoked once with the change; each
such callback is the Component's `observe_handler`. -/
def dispatchChange (s : SystemState) (ch : Change) : SystemState :=
  let fired := s.comp.widget.observers.filter (fun ns => ch.name ∈ ns)
  { s with med := fired.foldl (fun m _ => s.comp.observe_handler m ch) s.med }

/-- `Component.__setitem__` at the system level: `widget.set_trait` stores
the value and traitlets dispatches the resulting change events to the
registered observers. -/
def SystemState.setitem (s : SystemState) (t : String) (v : Value) :
    Except PyError SystemState :=
  match s.comp.widget.set_trait t v with
  | .error e => .error e
  | .ok (w2, changes) =>
    .ok (changes.foldl dispatchChange
      { s with comp := { s.comp with widget := w2 } })

/-- A click on the wrapped button: the `on_click` handler installed by
`__new__` runs `w.value = not w.value`, which goes through the trait
machinery and dispatches the change.  A widget without the handler ignores
the click. -/
def SystemState.click (s : SystemState) : SystemState :=
  if s.comp.widget.clickToggle then
    match s.comp.widget.traitValue "value" with
    | some v =>
      match s.setitem "value" (.bool (!v.truthy)) with
      | .ok s2 => s2
      | .error _ => s
    | none => s
  else s

/-! Concrete example widgets, used to instantiate the theorems below: a
`Checkbox` (a value-bearing widget) and a `Button` (the special-cased
clickable variant, which has no `value` trait of its own).  The `methods`
lists hold non-trait attributes every `ipywidgets` widget object exposes. -/

/-- A `widgets.Checkbox(value=False, description="tick")`. -/
def cbWidget : Widget :=
  Widget.mk "Checkbox" false
    [("value", .bool false), ("description", .str "tick")]
    ["observe", "unobserve", "has_trait", "set_trait", "add_traits"]
    [] false

/-- A `widgets.Button(description="go")`. -/
def btnWidget : Widget :=
  Widget.mk "Button" true
    [("description", .str "go")]
    ["observe", "unobserve", "has_trait", "set_trait", "add_traits", "on_click"]
    [] false

/-- The Component produced by `Component(mediator=m, widget=cbWidget)`. -/
def cbComp : Component :=
  Component.mk (cbWidget.observe ["value"]) "CheckboxComponent"
    (.nameRef "CheckboxComponent")

/-- The Component produced by
`Component(mediator=m, widget=btnWidget, notify_self=True)`: `__new__` has
patched the button with the `value` trait and the click handler. -/
def btnComp : Component :=
  Component.mk ((Component.applyNew btnWidget).observe ["value"])
    "ButtonComponent" .componentRef

/-! Helper lemmas about the embedding. -/

theorem applyNew_observers (w : Widget) :
    (Component.applyNew w).observers = w.observers := by
  unfold Component.applyNew Widget.addValueTrait Widget.storeTrait
  split
  · split <;> rfl
  · rfl

theorem applyNew_typeName (w : Widget) :
    (Component.applyNew w).typeName = w.typeName := by
  unfold Component.applyNew Widget.addValueTrait Widget.storeTrait
  split
  · split <;> rfl
  · rfl

theorem construct_ok_fields {w : Widget} {wn : Option String}
    {names : List String} {ns : Bool} {c : Component}
    (hc : Component.construct w wn names ns = .ok c) :
    c.widget = (Component.applyNew w).observe names ∧
    c.widget_name = displayName wn w.typeName ∧
    c.reference =
      (if ns then Reference.componentRef else Reference.nameRef c.widget_name) := by
  unfold Component.construct Component.init at hc
  split at hc
  · exact absurd hc (by simp)
  · exact absurd hc (by simp)
  · rw [Except.ok.injEq] at hc
    subst hc
    refine ⟨rfl, ?_, rfl⟩
    simp [applyNew_typeName]

theorem getattr_error_shape {w : Widget} {t : String} {e : PyError}
    (h : w.getattr t = .error e) : e = .attributeError t := by
  unfold Widget.getattr at h
  split at h
  · simp at h
  · split at h
    · simp at h
    · simp only [Except.error.injEq] at h
      exact h.symm

theorem getattr_ok_of_traitValue {w : Widget} {t : String} {v : Value}
    (h : w.traitValue t = some v) : w.getattr t = .ok v := by
  unfold Widget.getattr
  rw [h]

theorem has_trait_iff_traitValue {w : Widget} {t : String} :
    w.has_trait t = true ↔ ∃ v, w.traitValue t = some v := by
  unfold Widget.has_trait Widget.traitValue
  cases w.traits.find? (fun p => p.1 = t) <;> simp

theorem bindE_error {ε α β : Type} (e : ε) (f : α → Except ε β) :
    (Except.error e >>= f) = Except.error e := rfl

theorem bindE_ok {ε α β : Type} (a : α) (f : α → Except ε β) :
    (Except.ok a >>= f) = f a := rfl

theorem pureE {ε α : Type} (a : α) : (pure a : Except ε α) = Except.ok a := rfl

theorem mapE_error {ε α β : Type} (f : α → β) (e : ε) :
    Except.map f (.error e) = (.error e : Except ε β) := rfl

theorem mapE_ok {ε α β : Type} (f : α → β) (a : α) :
    Except.map f (.ok a) = (.ok (f a) : Except ε β) := rfl

theorem getattr_not_ok {w : Widget} {t : String}
    (h : (w.getattr t).isOk = false) :
    w.getattr t = .error (.attributeError t) := by
  cases hg : w.getattr t with
  | error e =>
    have he := getattr_error_shape hg
    subst he
    rfl
  | ok v =>
    rw [hg] at h
    exact Bool.noConfusion h

theorem mapM_getattr_first_error {w : Widget} {l : List String} {a : String}
    (h : l.find? (fun n => !(w.getattr n).isOk) = some a) :
    l.mapM w.getattr = .error (.attributeError a) := by
  induction l with
  | nil => exact absurd h (by simp)
  | cons t ts ih =>
    cases hg : w.getattr t with
    | error e =>
      have he := getattr_error_shape hg
      subst he
      have hpt : (fun n => !(w.getattr n).isOk) t = true := by
        show (!(w.getattr t).isOk) = true
        rw [hg]
        rfl
      rw [List.find?_cons_of_pos (p := fun n => !(w.getattr n).isOk) ts hpt,
        Option.some.injEq] at h
      subst h
      rw [List.mapM_cons, hg]
      rfl
    | ok v =>
      have hpt : ¬ (fun n => !(w.getattr n).isOk) t = true := by
        show ¬ (!(w.getattr t).isOk) = true
        rw [hg]
        exact fun hh => Bool.noConfusion hh
      rw [List.find?_cons_of_neg (p := fun n => !(w.getattr n).isOk) ts hpt] at h
      simp only [List.mapM_cons, hg, bindE_ok, ih h, bindE_error]

theorem mapM_getattr_get {w : Widget} {l : List String} {vals : List Value}
    (h : l.mapM w.getattr = .ok vals) :
    vals.length = l.length ∧
    ∀ (i : ℕ) (hi : i < l.length) (hv : i < vals.length),
      w.getattr (l.get ⟨i, hi⟩) = .ok (vals.get ⟨i, hv⟩) := by
  induction l generalizing vals with
  | nil =>
    rw [List.mapM_nil, pureE, Except.ok.injEq] at h
    subst h
    refine ⟨rfl, ?_⟩
    intro i hi
    simp at hi
  | cons t ts ih =>
    rw [List.mapM_cons] at h
    cases hg : w.getattr t with
    | error e =>
      rw [hg, bindE_error] at h
      exact absurd h (by simp)
    | ok v =>
      simp only [hg, bindE_ok] at h
      cases hm : ts.mapM w.getattr with
      | error e =>
        rw [hm, bindE_error] at h
        exact absurd h (by simp)
      | ok vs =>
        simp only [hm, bindE_ok, pureE, Except.ok.injEq] at h
        subst h
        obtain ⟨hlen, hget⟩ := ih hm
        refine ⟨by simp [hlen], ?_⟩
        intro i hi hv
        cases i with
        | zero => simpa using hg
        | succ j => simpa using hget j (by simpa using hi) (by simpa using hv)

theorem find_store (l : List (String × Value)) (t : String) (v : Value)
    (h : (l.find? (fun p => p.1 = t)).isSome = true) :
    (l.map (fun p => if p.1 = t then (t, v) else p)).find? (fun p => p.1 = t)
      = some (t, v) := by
  induction l with
  | nil => simp at h
  | cons p ps ih =>
    by_cases hp : p.1 = t
    · simp [hp]
    · rw [List.find?_cons_of_neg _ (by simpa using hp)] at h
      simpa [hp] using ih h

theorem storeTrait_traitValue_self {w : Widget} {t : String} (v : Value)
    (h : w.has_trait t = true) :
    (w.storeTrait t v).traitValue t = some v := by
  unfold Widget.has_trait at h
  unfold Widget.storeTrait Widget.traitValue
  simp [find_store w.traits t v h]

theorem storeTrait_observers (w : Widget) (t : String) (v : Value) :
    (w.storeTrait t v).observers = w.observers := rfl

theorem itemgetter_first_error {w : Widget} {names : List String} {a : String}
    (h : names.find? (fun n => !(w.getattr n).isOk) = some a) :
    itemgetterGet w names = .error (.attributeError a) ∧
      w.getattr a = .error (.attributeError a) := by
  have hga : w.getattr a = .error (.attributeError a) := by
    have hp := List.find?_some h
    simp only [Bool.not_eq_true'] at hp
    exact getattr_not_ok hp
  refine ⟨?_, hga⟩
  match names with
  | [] => exact absurd h (by simp)
  | [t] =>
    have hat : a = t := by simpa using List.mem_of_find?_eq_some h
    subst hat
    rw [show itemgetterGet w [a] = (w.getattr a).map CallResult.single from rfl,
      hga, mapE_error]
  | t1 :: t2 :: ts =>
    rw [show itemgetterGet w (t1 :: t2 :: ts)
        = ((t1 :: t2 :: ts).mapM w.getattr).map CallResult.tuple from rfl,
      mapM_getattr_first_error h, mapE_error]

theorem addValueTrait_value (w : Widget) :
    (Widget.addValueTrait w).traitValue "value" = some (.bool false) := by
  unfold Widget.addValueTrait
  by_cases h : w.has_trait "value" = true
  · rw [if_pos h]
    exact storeTrait_traitValue_self _ h
  · rw [if_neg h]
    unfold Widget.has_trait at h
    unfold Widget.traitValue at *
    show ((w.traits ++ [("value", Value.bool false)]).find? _).map _ = _
    rw [List.find?_append]
    cases hf : w.traits.find? (fun p => p.1 = "value") with
    | none => simp
    | some p => exact absurd (by rw [hf]; rfl) h

theorem dispatchChange_comp (s : SystemState) (ch : Change) :
    (dispatchChange s ch).comp = s.comp := rfl

theorem foldl_dispatch_comp (l : List Change) (s : SystemState) :
    (l.foldl dispatchChange s).comp = s.comp := by
  induction l generalizing s with
  | nil => rfl
  | cons ch chs ih => rw [List.foldl_cons, ih, dispatchChange_comp]

theorem set_trait_ok_shape {w : Widget} {t : String} {v : Value}
    {w2 : Widget} {chs : List Change}
    (h : w.set_trait t v = .ok (w2, chs)) :
    w2 = w.storeTrait t v ∧ w.has_trait t = true := by
  unfold Widget.set_trait at h
  split at h
  · exact absurd h (by simp)
  next old hv =>
    refine ⟨?_, has_trait_iff_traitValue.mpr ⟨old, hv⟩⟩
    split at h <;>
      (simp only [Except.ok.injEq, Prod.mk.injEq] at h; exact h.1.symm)

theorem setitem_fires_once {c : Component} {m : MediatorState} {t : String}
    {old v : Value} {names : List String}
    (hobs : c.widget.observers = [names])
    (ht : t ∈ names)
    (hold : c.widget.traitValue t = some old)
    (hne : v ≠ old) :
    SystemState.setitem ⟨c, m⟩ t v =
      .ok ⟨{ c with widget := c.widget.storeTrait t v },
           ⟨m.log ++ [(c.reference, ⟨t, old, v⟩)]⟩⟩ := by
  simp only [SystemState.setitem, Widget.set_trait, hold, if_neg hne,
    List.foldl_cons, List.foldl_nil, dispatchChange, storeTrait_observers,
    hobs, Component.observe_handler, MediatorState.notify]
  simp [List.filter, ht]

/-! The claims. -/

/-- C1: constructing a Component with a `names` tuple that holds at least
one name that is not an attribute of the wrapped widget raises a
`ValueError` whose message identifies the offending `names` argument,
chained (`raise ... from e`) to the underlying `AttributeError`, and the
observer callback is never registered on the widget.  The hypothesis says
`a` is the first requested name whose attribute lookup on the wrapped
widget (after `__new__`) fails — the one the validation read trips over. -/
theorem C1_bad_names_config_error (w : Widget) (wn : Option String)
    (names : List String) (ns : Bool) (a : String)
    (ha : names.find? (fun n => !((Component.applyNew w).getattr n).isOk)
      = some a) :
    Component.construct w wn names ns =
      .error (.valueError (badNamesMessage names) (.attributeError a),
        Component.applyNew w)
    ∧ (Component.applyNew w).getattr a = .error (.attributeError a)
    ∧ (Component.applyNew w).observers = w.observers := by
  obtain ⟨hig, hga⟩ := itemgetter_first_error ha
  refine ⟨?_, hga, applyNew_observers w⟩
  unfold Component.construct Component.init
  rw [hig]

/-- Witness for C1 at a concrete widget and a concrete bad names tuple. -/
theorem C1_config_error_instance :
    (["nope"].find?
      (fun n => !((Component.applyNew cbWidget).getattr n).isOk) = some "nope")
    ∧ (Component.construct cbWidget none ["nope"] false =
        .error (.valueError (badNamesMessage ["nope"]) (.attributeError "nope"),
          Component.applyNew cbWidget)
      ∧ (Component.applyNew cbWidget).getattr "nope"
          = .error (.attributeError "nope")
      ∧ (Component.applyNew cbWidget).observers = cbWidget.observers) :=
  ⟨rfl, C1_bad_names_config_error cbWidget none ["nope"] false "nope" rfl⟩

/-- C2: after a successful construction from a fresh widget (no prior
observers), mutating an observed trait to a different value invokes
`Mediator.notify` exactly once — the log grows by the single entry
`(reference, change)` — and the reference is the Component itself when
`notify_self=True` and the display-name string otherwise. -/
theorem C2_notify_exactly_once (w : Widget) (wn : Option String)
    (names : List String) (ns : Bool) (c : Component) (m : MediatorState)
    (t : String) (v old : Value)
    (hw : w.observers = [])
    (hc : Component.construct w wn names ns = .ok c)
    (ht : t ∈ names)
    (hold : c.widget.traitValue t = some old)
    (hne : v ≠ old) :
    SystemState.setitem ⟨c, m⟩ t v =
      .ok ⟨{ c with widget := c.widget.storeTrait t v },
           ⟨m.log ++ [(c.reference, ⟨t, old, v⟩)]⟩⟩
    ∧ c.reference = (if ns then Reference.componentRef
        else Reference.nameRef c.widget_name) := by
  obtain ⟨hcw, hcn, hcr⟩ := construct_ok_fields hc
  have hobs : c.widget.observers = [names] := by
    rw [hcw]
    show (Component.applyNew w).observers ++ [names] = [names]
    rw [applyNew_observers, hw]
    rfl
  exact ⟨setitem_fires_once hobs ht hold hne, hcr⟩

/-- Witness for C2: mutating the observed `value` trait of the checkbox
Component produces exactly one notification carrying the display name. -/
theorem C2_notify_once_instance :
    SystemState.setitem ⟨cbComp, ⟨[]⟩⟩ "value" (.bool true) =
      .ok ⟨{ cbComp with widget := cbComp.widget.storeTrait "value" (.bool true) },
           ⟨[(cbComp.reference, ⟨"value", .bool false, .bool true⟩)]⟩⟩
    ∧ cbComp.reference = (if false then Reference.componentRef
        else Reference.nameRef cbComp.widget_name) :=
  C2_notify_exactly_once cbWidget none ["value"] false cbComp ⟨[]⟩ "value"
    (.bool true) (.bool false) rfl rfl (by decide) rfl (by decide)

/-- C3 counterexample: with exactly one requested name, `__call__` goes
through `operator.itemgetter(name)`, which returns the bare value rather
than a 1-tuple — contradicting "as a tuple ... including when exactly one
name is requested". -/
theorem C3_single_name_not_tuple :
    Component.call cbComp ["value"] = .ok (.single (.bool false))
    ∧ CallResult.isTuple (.single (.bool false)) = false :=
  ⟨rfl, rfl⟩

/-- C3 amended: multi-read returns the current attribute values in
requested order — as a tuple when two or more names are requested, but as
the bare value (not wrapped in a tuple) when exactly one name is
requested.  The hypothesis supplies the in-order attribute values. -/
theorem C3_call_values (c : Component) (names : List String)
    (vals : List Value)
    (hvals : names.mapM c.widget.getattr = .ok vals) :
    (∀ t, names = [t] →
      Component.call c names = (c.widget.getattr t).map CallResult.single)
    ∧ (2 ≤ names.length →
        Component.call c names = .ok (.tuple vals)
        ∧ vals.length = names.length
        ∧ ∀ (i : ℕ) (hi : i < names.length) (hv : i < vals.length),
            c.widget.getattr (names.get ⟨i, hi⟩) = .ok (vals.get ⟨i, hv⟩)) := by
  constructor
  · intro t ht
    subst ht
    rfl
  · intro h2
    obtain ⟨hlen, hget⟩ := mapM_getattr_get hvals
    refine ⟨?_, hlen, hget⟩
    cases names with
    | nil => simp at h2
    | cons t1 rest =>
      cases rest with
      | nil => simp at h2
      | cons t2 ts =>
        rw [show Component.call c (t1 :: t2 :: ts)
            = ((t1 :: t2 :: ts).mapM c.widget.getattr).map CallResult.tuple
            from rfl,
          hvals, mapE_ok]

/-- Witness for C3 (amended): a two-name multi-read on the checkbox
Component returns the tuple of current values in order. -/
theorem C3_call_values_instance :
    Component.call cbComp ["value", "description"]
      = .ok (.tuple [.bool false, .str "tick"]) :=
  ((C3_call_values cbComp ["value", "description"]
      [.bool false, .str "tick"] rfl).2 (by decide)).1

/-- C4: constructing a Component over a Button attaches a boolean `value`
trait initialized to `False` and installs the click handler; a click on
any such component state negates the value, and because toggling always
changes the value it triggers exactly one Mediator notification when
`"value"` is among the observed names. -/
theorem C4_button_click_toggle (w : Widget) (wn : Option String)
    (names : List String) (ns : Bool) (c : Component)
    (hbtn : w.isButton = true)
    (hc : Component.construct w wn names ns = .ok c) :
    (c.widget.traitValue "value" = some (.bool false)
      ∧ c.widget.clickToggle = true)
    ∧ ∀ (c2 : Component) (m : MediatorState) (b : Bool),
        c2.widget.observers = [names] →
        "value" ∈ names →
        c2.widget.clickToggle = true →
        c2.widget.traitValue "value" = some (.bool b) →
        SystemState.click ⟨c2, m⟩ =
          ⟨{ c2 with widget := c2.widget.storeTrait "value" (.bool (!b)) },
           ⟨m.log ++ [(c2.reference, ⟨"value", .bool b, .bool (!b)⟩)]⟩⟩ := by
  obtain ⟨hcw, -, -⟩ := construct_ok_fields hc
  have happ : Component.applyNew w
      = { w.addValueTrait with clickToggle := true } := by
    unfold Component.applyNew
    rw [if_pos hbtn]
  constructor
  · constructor
    · rw [hcw, happ]
      exact addValueTrait_value w
    · rw [hcw, happ]
      rfl
  · intro c2 m b hobs hmem htog hval
    have hne : (Value.bool (!b)) ≠ (Value.bool b) := by simp
    have hset := setitem_fires_once (m := m) hobs hmem hval hne
    simp only [SystemState.click, htog, if_true, hval, Value.truthy, hset]

/-- Witness for C4: the button Component starts with `value=False` and the
toggle handler installed; one click flips the value to `True` and logs
exactly one notification with the Component reference. -/
theorem C4_button_click_instance :
    (btnComp.widget.traitValue "value" = some (.bool false)
      ∧ btnComp.widget.clickToggle = true)
    ∧ SystemState.click ⟨btnComp, ⟨[]⟩⟩ =
        ⟨{ btnComp with widget := btnComp.widget.storeTrait "value" (.bool true) },
         ⟨[(btnComp.reference, ⟨"value", .bool false, .bool true⟩)]⟩⟩ :=
  ⟨(C4_button_click_toggle btnWidget none ["value"] true btnComp rfl rfl).1,
   (C4_button_click_toggle btnWidget none ["value"] true btnComp rfl rfl).2
     btnComp ⟨[]⟩ false rfl (by decide) rfl rfl⟩

/-- C5: string conversion of a Component returns its display name, and a
Component constructed without an explicit `widget_name` gets the default
display name: the wrapped widget's type name concatenated with
"Component". -/
theorem C5_str_default_name (c : Component) (w : Widget) (names : List String)
    (ns : Bool) (c2 : Component)
    (hc2 : Component.construct w none names ns = .ok c2) :
    Component.toStr c = c.widget_name
    ∧ c2.widget_name = w.typeName ++ "Component" := by
  refine ⟨rfl, ?_⟩
  rw [(construct_ok_fields hc2).2.1]
  rfl

/-- Witness for C5 on the checkbox Component. -/
theorem C5_str_default_instance :
    Component.toStr cbComp = cbComp.widget_name
    ∧ cbComp.widget_name = cbWidget.typeName ++ "Component" :=
  C5_str_default_name cbComp cbWidget ["value"] false cbComp rfl

/-- C6: a bracket write that succeeds stores the value on the widget, and
the subsequent bracket read of the same name returns the written value
(round-trip). -/
theorem C6_write_read_roundtrip (s : SystemState) (t : String) (v : Value)
    (s2 : SystemState)
    (h : s.setitem t v = .ok s2) :
    Component.getitem s2.comp t = .ok v := by
  unfold SystemState.setitem at h
  cases hst : s.comp.widget.set_trait t v with
  | error e =>
    rw [hst] at h
    exact absurd h (by simp)
  | ok p =>
    obtain ⟨w2, chs⟩ := p
    rw [hst] at h
    obtain ⟨hw2, htr⟩ := set_trait_ok_shape hst
    simp only [Except.ok.injEq] at h
    subst h
    subst hw2
    unfold Component.getitem
    rw [foldl_dispatch_comp]
    exact getattr_ok_of_traitValue (storeTrait_traitValue_self v htr)

/-- Witness for C6: writing `description` then reading it back on the
checkbox Component returns the written value. -/
theorem C6_roundtrip_instance :
    SystemState.setitem ⟨cbComp, ⟨[]⟩⟩ "description" (.str "x")
      = .ok ⟨{ cbComp with widget :=
          cbComp.widget.storeTrait "description" (.str "x") }, ⟨[]⟩⟩
    ∧ Component.getitem
        { cbComp with widget :=
          cbComp.widget.storeTrait "description" (.str "x") } "description"
      = .ok (.str "x") :=
  ⟨rfl, C6_write_read_roundtrip ⟨cbComp, ⟨[]⟩⟩ "description" (.str "x")
    ⟨{ cbComp with widget :=
      cbComp.widget.storeTrait "description" (.str "x") }, ⟨[]⟩⟩ rfl⟩

/-- C7: the notify handler body is exactly
`self._mediator.notify(self._reference, change)` — it forwards
`(reference, change)`, returns exactly the Mediator's outcome (so any
error the Mediator raises propagates to the caller unchanged, with no
try/except, retry or recovery), and against the logging Mediator it
appends exactly the one forwarded pair. -/
theorem C7_handler_forwards (c : Component)
    (notify : Reference → Change → Except PyError Unit) (ch : Change)
    (m : MediatorState) :
    Component.observe_handlerExc c notify ch = notify c.reference ch
    ∧ Component.observe_handler c m ch
        = MediatorState.mk (m.log ++ [(c.reference, ch)]) :=
  ⟨rfl, rfl⟩

/-- C8 counterexample: `"observe"` is an attribute of the wrapped widget
object (a bound method), so the indexed read (`getattr`) succeeds, yet the
membership test (`has_trait`) reports `False`: a name whose indexed read
succeeds is not necessarily reported as a member. -/
theorem C8_read_without_membership :
    (Component.getitem cbComp "observe").isOk = true
    ∧ Component.mem cbComp "observe" = false := by decide

/-- C8 amended: the membership test reports whether the name is a *trait*
of the wrapped widget (`has_trait`), and every member name can be read by
the indexed read; the indexed read is plain `getattr`, which also succeeds
on non-trait attributes, so read success does not imply membership. -/
theorem C8_membership_is_trait (c : Component) (t : String) :
    Component.mem c t = c.widget.has_trait t
    ∧ (Component.mem c t = true → (Component.getitem c t).isOk = true) := by
  refine ⟨rfl, fun h => ?_⟩
  obtain ⟨v, hv⟩ := has_trait_iff_traitValue.mp h
  unfold Component.getitem
  rw [getattr_ok_of_traitValue hv]
  rfl

/-- Witness for C8 (amended) at the member name `"value"`. -/
theorem C8_membership_instance :
    (Component.getitem cbComp "value").isOk = true :=
  (C8_membership_is_trait cbComp "value").2 (by decide)

/-- C9: constructing with the empty names tuple fails with the `TypeError`
raised by the validation call `self()` (missing positional argument
`trait`), not with the configuration `ValueError`, and the observer is
never registered. -/
theorem C9_empty_names_type_error (w : Widget) (wn : Option String)
    (ns : Bool) :
    Component.construct w wn [] ns =
      .error (.typeError missingTraitMessage, Component.applyNew w)
    ∧ (Component.applyNew w).observers = w.observers :=
  ⟨rfl, applyNew_observers w⟩

/-- C10: with `widget_name=""` the falsy empty string is replaced by the
default display name (widget type name + "Component"), so the display
name is the default and `str(component)` is not the empty string. -/
theorem C10_empty_name_default (w : Widget) (names : List String) (ns : Bool)
    (c : Component)
    (hc : Component.construct w (some "") names ns = .ok c) :
    c.widget_name = w.typeName ++ "Component" ∧ Component.toStr c ≠ "" := by
  have h1 : c.widget_name = w.typeName ++ "Component" := by
    rw [(construct_ok_fields hc).2.1]
    rfl
  refine ⟨h1, ?_⟩
  show c.widget_name ≠ ""
  rw [h1]
  intro hcontra
  have hlen := congrArg String.length hcontra
  have h9 : ("Component" : String).length = 9 := rfl
  have h0 : ("" : String).length = 0 := rfl
  rw [String.length_append, h9, h0] at hlen
  omega

/-- Witness for C10: the checkbox Component constructed with
`widget_name=""` carries the default display name. -/
theorem C10_empty_name_instance :
    cbComp.widget_name = cbWidget.typeName ++ "Component"
    ∧ Component.toStr cbComp ≠ "" :=
  C10_empty_name_default cbWidget ["value"] false cbComp rfl

end Ipymediator
